import Mathlib

/-!
A shallow embedding of the access-control, query-scoping, versioning and
activity-logging logic of the `document_management` repository
(`apps/documents/{models,permissions,serializers,views}.py`), together with
theorems settling the specification claims about that logic.

Machine-level conventions of the embedding:
* users, folders, documents, versions and comments are identified by `Nat` ids;
* a Python object attribute that may be absent (probed with `hasattr`) is an
  `Option`;
* a Django file reference is its stored name, a `String`; a `FileField` that
  holds no file is `none`;
* database rows live in `List`s; a Django `QuerySet.filter` is `List.filter`.
-/

namespace DocMgmt

/-- An authenticated principal, as the permission checks consume it.
`is_admin = none` models a user object without an `is_admin` attribute
(`hasattr` finds no `is_admin` attribute). -/
structure User where
  id : Nat
  is_staff : Bool
  is_admin : Option Bool
deriving DecidableEq, Repr

/-- `request.user.is_staff or hasattr(...) and request.user.is_admin` — the admin/staff capability test repeated in
`permissions.py` and `views.py`. -/
def User.isAdminOrStaff (u : User) : Bool :=
  u.is_staff || (u.is_admin.isSome && u.is_admin.getD false)

/-- An HTTP request method. -/
inductive Method where
  | GET
  | HEAD
  | OPTIONS
  | POST
  | PUT
  | PATCH
  | DELETE
deriving DecidableEq, Repr

/-- `rest_framework.permissions.SAFE_METHODS`, i.e. GET, HEAD and OPTIONS. -/
def Method.isSafe : Method → Bool
  | .GET => true
  | .HEAD => true
  | .OPTIONS => true
  | _ => false

/-- The attributes of a target object that the object-level permission
classes probe: `obj.owner`, `obj.is_public`, and `obj.shared_users`.
`shared_users = none` models an object without a `shared_users` attribute
(`hasattr` finds no `shared_users` attribute). -/
structure Entity where
  ownerId : Nat
  is_public : Bool
  shared_users : Option (List Nat)
deriving DecidableEq, Repr

/-- `hasattr(...) and request.user in obj.shared_users.all()`. -/
def Entity.sharedWith (obj : Entity) (u : User) : Bool :=
  match obj.shared_users with
  | some l => l.contains u.id
  | none => false

/-- A target object as `IsOwnerOrAdmin` probes it: only the `owner` attribute
is read, and it is read directly, without a `hasattr` guard. `owner = none`
models an object without an `owner` attribute — notably a `Comment` row
(`models.py` lines 143-151), whose author field is named `user`, even though
`CommentViewSet` (`views.py` lines 300-317) applies this permission class to
comments. -/
structure PermTarget where
  owner : Option Nat
deriving DecidableEq, Repr

/-- `IsOwnerOrAdmin.has_object_permission` (`permissions.py` lines 9-20):
safe methods are always allowed; otherwise admin/staff are allowed; otherwise
`obj.owner == request.user` is returned. Reading `obj.owner` on an object
without that attribute raises `AttributeError`, so the check does not return
at all there: `some allow` is a clean allow/deny, `none` is the uncaught
exception propagating. -/
def hasObjectPermissionOwnerOrAdmin (m : Method) (u : User) (obj : PermTarget) : Option Bool :=
  if m.isSafe then
    some true
  else if u.isAdminOrStaff then
    some true
  else
    match obj.owner with
    | some o => some (o == u.id)
    | none => none

/-- `IsOwnerAdminOrShared.has_object_permission` (`permissions.py` lines
28-47): admin/staff, then owner, then public, then shared users restricted to
safe methods, then deny. -/
def hasObjectPermissionOwnerAdminOrShared (m : Method) (u : User) (obj : Entity) : Bool :=
  if u.isAdminOrStaff then
    true
  else if obj.ownerId == u.id then
    true
  else if obj.is_public then
    true
  else if obj.sharedWith u && m.isSafe then
    true
  else
    false

/-- A `Folder` row (`models.py` lines 17-43): name, optional parent folder id,
owner, shared users, public flag. -/
structure FolderRow where
  fid : Nat
  name : String
  parent : Option Nat
  ownerId : Nat
  shared_users : List Nat
  is_public : Bool
deriving DecidableEq, Repr

/-- A `Document` row (`models.py` lines 59-94): the fields the claims touch —
title, stored file reference (`none` while no file is stored), owner, shared
users, public flag, version counter (`default=1`). -/
structure DocRow where
  docId : Nat
  title : String
  file : Option String
  ownerId : Nat
  shared_users : List Nat
  is_public : Bool
  version : Nat
deriving DecidableEq, Repr

/-- A `DocumentVersion` row (`models.py` lines 97-109): document reference,
file reference, version number, creator, comment. -/
structure VersionRow where
  document : Nat
  file : String
  version : Nat
  created_by : Nat
  comment : String
deriving DecidableEq, Repr

/-- A `DocumentActivity` row (`models.py` lines 115-133): optional document
reference (`on_delete=SET_NULL`), actor, activity kind, free text, origin
address. -/
structure ActivityRow where
  document : Option Nat
  userId : Nat
  activity_type : String
  description : String
  ip_address : Option String
deriving DecidableEq, Repr

/-- A `Comment` row (`models.py` lines 143-151): document reference, author,
text, optional parent comment. -/
structure CommentRow where
  document : Nat
  userId : Nat
  content : String
  parent : Option Nat
deriving DecidableEq, Repr

/-- Foreign-key lookup of a document row by id. -/
def findDoc (docs : List DocRow) (i : Nat) : Option DocRow :=
  docs.find? (fun d => d.docId == i)

/-- The visibility test shared by the folder queryset (`views.py` lines
50-57): `Q(owner=user) | Q(shared_users=user) | Q(is_public=True)`. -/
def FolderRow.visibleTo (f : FolderRow) (u : User) : Bool :=
  f.ownerId == u.id || f.shared_users.contains u.id || f.is_public

/-- The visibility test of the document queryset (`views.py` lines 123-130):
`Q(owner=user) | Q(shared_users=user) | Q(is_public=True)`. -/
def DocRow.visibleTo (d : DocRow) (u : User) : Bool :=
  d.ownerId == u.id || d.shared_users.contains u.id || d.is_public

/-- `FolderViewSet.get_queryset`. -/
def folderQueryset (u : User) (fs : List FolderRow) : List FolderRow :=
  fs.filter (fun f => f.visibleTo u)

/-- `DocumentViewSet.get_queryset`. -/
def documentQueryset (u : User) (docs : List DocRow) : List DocRow :=
  docs.filter (fun d => d.visibleTo u)

/-- The `document__...` join of the version and comment querysets: resolve the
document foreign key and test its visibility. -/
def docRefVisible (u : User) (docs : List DocRow) (i : Nat) : Bool :=
  match findDoc docs i with
  | some d => d.visibleTo u
  | none => false

/-- `DocumentVersionViewSet.get_queryset` (`views.py` lines 266-273): keep the
versions whose referenced document is owned by, shared with, or public for the
user (`Q(document__owner=user) | Q(document__shared_users=user) |
Q(document__is_public=True)`). -/
def versionQueryset (u : User) (docs : List DocRow) (vs : List VersionRow) : List VersionRow :=
  vs.filter (fun v => docRefVisible u docs v.document)

/-- `CommentViewSet.get_queryset` (`views.py` lines 307-314): same document
join as the version queryset. -/
def commentQueryset (u : User) (docs : List DocRow) (cs : List CommentRow) : List CommentRow :=
  cs.filter (fun c => docRefVisible u docs c.document)

/-- The `filter(document__owner=user)` join of the activity queryset: the
inner join on the nullable `document` column drops a row whose reference is
null, and otherwise tests ownership of the referenced document. -/
def activityRefOwned (u : User) (docs : List DocRow) (a : ActivityRow) : Bool :=
  match a.document with
  | some i =>
    match findDoc docs i with
    | some d => d.ownerId == u.id
    | none => false
  | none => false

/-- `DocumentActivityViewSet.get_queryset` (`views.py` lines 330-335):
admin/staff see every activity row; anyone else sees
`DocumentActivity.objects.filter(document__owner=user)`. -/
def activityQueryset (u : User) (docs : List DocRow) (acts : List ActivityRow) : List ActivityRow :=
  if u.isAdminOrStaff then
    acts
  else
    acts.filter (fun a => activityRefOwned u docs a)

/-- The per-document state the lifecycle operations act on: the document row
and its `DocumentVersion` and `DocumentActivity` rows, in insertion order. -/
structure DocState where
  doc : DocRow
  versions : List VersionRow
  activities : List ActivityRow
deriving DecidableEq, Repr

/-- `DocumentSerializer.create` (`serializers.py` lines 125-154): owner is
forced to the requesting user and `version` takes the model default 1; a
"created" `DocumentActivity` is logged with the request's `REMOTE_ADDR`;
an initial `DocumentVersion` (version 1, created by the owner, comment
"Initial version") is added only when the document holds a file. -/
def createDocument (uid : Nat) (ip : Option String) (i : Nat) (title : String)
    (file0 : Option String) (pub : Bool) : DocState :=
  let doc : DocRow :=
    { docId := i, title := title, file := file0, ownerId := uid,
      shared_users := [], is_public := pub, version := 1 }
  let acts : List ActivityRow :=
    [{ document := some i, userId := uid, activity_type := "created",
       description := "Document created", ip_address := ip }]
  let vs : List VersionRow :=
    match file0 with
    | some f =>
      [{ document := i, file := f, version := 1, created_by := uid,
         comment := "Initial version" }]
    | none => []
  { doc := doc, versions := vs, activities := acts }

/-- `DocumentDetailSerializer.update` (`serializers.py` lines 173-215),
restricted to the file field. `newFile = none` models a request payload
without a `file` key (the file key test in validated_data is false). A new version is
needed exactly when a file is supplied and differs from the stored one; then
the version counter is bumped, a `DocumentVersion` row with comment
"Version N" is added, and an "updated" activity describing the new version
number is logged. -/
def replaceFile (uid : Nat) (ip : Option String) (st : DocState)
    (newFile : Option String) : DocState :=
  let old_file := st.doc.file
  let new_version_needed :=
    match newFile with
    | some f => some f != old_file
    | none => false
  let doc1 :=
    match newFile with
    | some f => { st.doc with file := some f }
    | none => st.doc
  if new_version_needed then
    let doc2 := { doc1 with version := doc1.version + 1 }
    { doc := doc2,
      versions := st.versions ++
        [{ document := doc2.docId, file := doc2.file.getD "",
           version := doc2.version, created_by := uid,
           comment := "Version " ++ toString doc2.version }],
      activities := st.activities ++
        [{ document := some doc2.docId, userId := uid,
           activity_type := "updated",
           description := "Updated to version " ++ toString doc2.version,
           ip_address := ip }] }
  else
    { st with doc := doc1 }

/-- One replace-file request: acting user, origin address, optional file. -/
structure ReplaceReq where
  uid : Nat
  ip : Option String
  file : Option String
deriving DecidableEq, Repr

/-- A creation followed by a sequence of replace-file requests. -/
def docTrace (uid : Nat) (ip : Option String) (i : Nat) (title : String)
    (file0 : Option String) (pub : Bool) (ops : List ReplaceReq) : DocState :=
  ops.foldl (fun st r => replaceFile r.uid r.ip st r.file)
    (createDocument uid ip i title file0 pub)

/-- The version numbers of a state's `DocumentVersion` rows, in insertion
order. -/
def versionNums (st : DocState) : List Nat :=
  st.versions.map (fun v => v.version)

/-- The whole entity store, as document deletion touches it. -/
structure Store where
  documents : List DocRow
  versions : List VersionRow
  comments : List CommentRow
  activities : List ActivityRow
deriving DecidableEq, Repr

/-- `on_delete=SET_NULL` on `DocumentActivity.document` (`models.py` lines
127-128): an activity referencing the deleted document keeps its row with the
reference nulled. -/
def nullifyRef (i : Nat) (a : ActivityRow) : ActivityRow :=
  if a.document == some i then { a with document := none } else a

/-- `instance.delete()` for a `Document`: the document row goes away, its
versions and comments cascade (`on_delete=CASCADE`), and its activities get a
null document reference (`on_delete=SET_NULL`). -/
def deleteDocument (s : Store) (i : Nat) : Store :=
  { documents := s.documents.filter (fun d => d.docId != i),
    versions := s.versions.filter (fun v => v.document != i),
    comments := s.comments.filter (fun c => c.document != i),
    activities := s.activities.map (nullifyRef i) }

/-- The activity row `DocumentViewSet.perform_destroy` logs: kind "deleted",
`document=None`, description from the title, origin address recorded. -/
def deletedActivity (uid : Nat) (ip : Option String) (d : DocRow) : ActivityRow :=
  { document := none, userId := uid, activity_type := "deleted",
    description := "Deleted document: " ++ d.title, ip_address := ip }

/-- `DocumentViewSet.perform_destroy` (`views.py` lines 140-149): log the
"deleted" activity first, then delete the row. -/
def performDestroy (uid : Nat) (ip : Option String) (s : Store) (d : DocRow) : Store :=
  let s1 := { s with activities := s.activities ++ [deletedActivity uid ip d] }
  deleteDocument s1 d.docId

/-- Foreign-key lookup of a folder row by id. -/
def findFolder (fs : List FolderRow) (i : Nat) : Option FolderRow :=
  fs.find? (fun f => f.fid == i)

/-- `Folder.full_path` (`models.py` lines 38-43), with explicit fuel: the
Python property recurses along the parent chain with no cycle guard
(`os.path.join(self.parent.full_path, self.name)`), so the embedding spends
one unit of fuel per parent hop and returns `none` when the chain does not
bottom out within the fuel. -/
def fullPathFuel (fs : List FolderRow) : Nat → FolderRow → Option String
  | 0, _ => none
  | fuel + 1, f =>
    match f.parent with
    | none => some f.name
    | some p =>
      match findFolder fs p with
      | none => none
      | some pf => (fullPathFuel fs fuel pf).map (fun s => s ++ "/" ++ f.name)

/-- `f` reaches a parentless folder in exactly `n` hops through the store
`fs` — the acyclicity precondition under which `full_path` terminates. -/
inductive RootedAt : List FolderRow → FolderRow → Nat → Prop where
  | root {fs : List FolderRow} {f : FolderRow} :
      f.parent = none → RootedAt fs f 0
  | step {fs : List FolderRow} {f pf : FolderRow} {p n : Nat} :
      f.parent = some p → findFolder fs p = some pf → RootedAt fs pf n →
      RootedAt fs f (n + 1)

/-- `FolderSerializer`/`FolderDetailSerializer.update` as it touches the
parent field: the new parent id is stored unconditionally — no write-time
acyclicity check exists anywhere in the repository. -/
def updateFolderParent (fs : List FolderRow) (i : Nat) (p : Option Nat) : List FolderRow :=
  fs.map (fun f => if f.fid == i then { f with parent := p } else f)

/-- A concrete document row used to instantiate the deletion theorem. -/
def demoDoc : DocRow :=
  { docId := 10, title := "Doc", file := some "documents/a.pdf", ownerId := 1,
    shared_users := [], is_public := false, version := 1 }

/-- A concrete pre-existing activity referencing `demoDoc`. -/
def demoCreatedActivity : ActivityRow :=
  { document := some 10, userId := 1, activity_type := "created",
    description := "Document created", ip_address := none }

/-- A concrete store holding `demoDoc` and `demoCreatedActivity`. -/
def demoStore : Store :=
  { documents := [demoDoc], versions := [], comments := [],
    activities := [demoCreatedActivity] }

/-- Invariant tying a document state's version rows to its version counter:
every row references the document, and the recorded version numbers are
exactly the contiguous range from `v0` up to the current counter. -/
def VersionInv (i v0 : Nat) (st : DocState) : Prop :=
  st.doc.docId = i ∧
  1 ≤ v0 ∧
  v0 ≤ st.doc.version + 1 ∧
  versionNums st = List.range' v0 (st.doc.version + 1 - v0) ∧
  ∀ v ∈ st.versions, v.document = i

/-- A concrete parentless folder. -/
def rootFolderA : FolderRow :=
  { fid := 1, name := "a", parent := none, ownerId := 9, shared_users := [],
    is_public := false }

/-- The same folder after an unchecked parent update made it its own parent. -/
def selfParentFolder : FolderRow :=
  { fid := 1, name := "a", parent := some 1, ownerId := 9, shared_users := [],
    is_public := false }

/-- A concrete principal without admin or staff capability. -/
def demoUser : User :=
  { id := 1, is_staff := false, is_admin := none }

/-- A concrete version row of `demoDoc`. -/
def demoVersion : VersionRow :=
  { document := 10, file := "documents/a.pdf", version := 1, created_by := 1,
    comment := "Initial version" }

/-- A concrete comment row on `demoDoc`. -/
def demoComment : CommentRow :=
  { document := 10, userId := 1, content := "Looks good", parent := none }

/-- C1 counterexample: a public document, a non-owner non-admin principal not
in the shared set, and a DELETE request — `IsOwnerAdminOrShared` returns
allow, while the claim says write/delete must be denied. -/
theorem C1_public_write_allowed_counterexample :
    Entity.is_public { ownerId := 1, is_public := true, shared_users := some [] } = true ∧
    User.isAdminOrStaff { id := 2, is_staff := false, is_admin := none } = false ∧
    Entity.ownerId { ownerId := 1, is_public := true, shared_users := some [] } ≠
      User.id { id := 2, is_staff := false, is_admin := none } ∧
    Entity.sharedWith { ownerId := 1, is_public := true, shared_users := some [] }
      { id := 2, is_staff := false, is_admin := none } = false ∧
    Method.isSafe Method.DELETE = false ∧
    hasObjectPermissionOwnerAdminOrShared Method.DELETE
      { id := 2, is_staff := false, is_admin := none }
      { ownerId := 1, is_public := true, shared_users := some [] } = true := by
  decide

/-- C1 (amended): for every entity flagged public, `IsOwnerAdminOrShared`
allows every authenticated principal every operation — the `is_public` branch
returns allow without inspecting the request method, so write/delete are
allowed too, not just read-only operations. -/
theorem C1_public_entity_allows_all_operations (m : Method) (u : User) (obj : Entity)
    (h : obj.is_public = true) :
    hasObjectPermissionOwnerAdminOrShared m u obj = true := by
  cases hA : u.isAdminOrStaff <;> cases hO : obj.ownerId == u.id <;>
    simp [hasObjectPermissionOwnerAdminOrShared, hA, hO, h]

/-- C1 witness: the amended claim evaluated at a concrete public entity,
non-owner principal and DELETE request. -/
theorem C1_public_entity_allows_all_operations_witness :
    hasObjectPermissionOwnerAdminOrShared Method.DELETE
      { id := 2, is_staff := false, is_admin := none }
      { ownerId := 1, is_public := true, shared_users := some [] } = true :=
  C1_public_entity_allows_all_operations Method.DELETE
    { id := 2, is_staff := false, is_admin := none }
    { ownerId := 1, is_public := true, shared_users := some [] } (by decide)

/-- C2: under `IsOwnerAdminOrShared`, the owner is allowed every operation;
an admin/staff principal is allowed every operation; a shared, non-owner,
non-admin principal on a non-public entity is allowed exactly the safe
(read-only) methods; and a principal that is none of these, on a non-public
entity, is denied every operation. -/
theorem C2_owner_admin_shared_evaluation (m : Method) (u : User) (obj : Entity) :
    (obj.ownerId = u.id → hasObjectPermissionOwnerAdminOrShared m u obj = true) ∧
    (u.isAdminOrStaff = true → hasObjectPermissionOwnerAdminOrShared m u obj = true) ∧
    (obj.sharedWith u = true → obj.ownerId ≠ u.id → u.isAdminOrStaff = false →
      obj.is_public = false →
      (hasObjectPermissionOwnerAdminOrShared m u obj = true ↔ m.isSafe = true)) ∧
    (obj.ownerId ≠ u.id → u.isAdminOrStaff = false → obj.sharedWith u = false →
      obj.is_public = false →
      hasObjectPermissionOwnerAdminOrShared m u obj = false) := by
  cases hA : u.isAdminOrStaff <;> cases hO : obj.ownerId == u.id <;>
    cases hP : obj.is_public <;> cases hS : obj.sharedWith u <;>
    cases hM : m.isSafe <;>
    simp_all [hasObjectPermissionOwnerAdminOrShared]

/-- C2 witness: the deny conjunct evaluated at a concrete non-owner,
non-admin, non-shared principal and a non-public entity. -/
theorem C2_owner_admin_shared_evaluation_witness :
    hasObjectPermissionOwnerAdminOrShared Method.GET
      { id := 2, is_staff := false, is_admin := none }
      { ownerId := 1, is_public := false, shared_users := some [] } = false :=
  (C2_owner_admin_shared_evaluation Method.GET
    { id := 2, is_staff := false, is_admin := none }
    { ownerId := 1, is_public := false, shared_users := some [] }).2.2.2
    (by decide) (by decide) (by decide) (by decide)

/-- C9 counterexample: a DELETE on an object without an `owner` attribute — a
`Comment` row, to which `CommentViewSet` applies `IsOwnerOrAdmin` — by a
non-admin principal makes the check raise `AttributeError` (`none`) instead
of returning a deny, refuting "the check returns deny, it does not fail". -/
theorem C9_comment_write_raises_counterexample :
    Method.isSafe Method.DELETE = false ∧
    User.isAdminOrStaff demoUser = false ∧
    PermTarget.owner { owner := none } = none ∧
    hasObjectPermissionOwnerOrAdmin Method.DELETE demoUser { owner := none } = none ∧
    hasObjectPermissionOwnerOrAdmin Method.DELETE demoUser { owner := none } ≠
      some false := by
  decide

/-- C9 (amended): `IsOwnerOrAdmin` allows every safe (read-type) request for
any principal and every request from an admin/staff principal; otherwise it
reads the target object directly: on an object that has an `owner` attribute
it returns allow exactly for the owner and a clean deny for everyone else,
but on an object without one — every `Comment` row, the very objects
`CommentViewSet` applies the check to — the read raises `AttributeError`, so
every non-admin write request on a comment fails with an error rather than
being denied (or allowed: even the author of the comment cannot write it). -/
theorem C9_owner_or_admin_evaluation (m : Method) (u : User) (obj : PermTarget) :
    (m.isSafe = true → hasObjectPermissionOwnerOrAdmin m u obj = some true) ∧
    (u.isAdminOrStaff = true → hasObjectPermissionOwnerOrAdmin m u obj = some true) ∧
    (∀ o, obj.owner = some o → m.isSafe = false → u.isAdminOrStaff = false →
      hasObjectPermissionOwnerOrAdmin m u obj = some (o == u.id)) ∧
    (obj.owner = none → m.isSafe = false → u.isAdminOrStaff = false →
      hasObjectPermissionOwnerOrAdmin m u obj = none) := by
  cases hM : m.isSafe <;> cases hA : u.isAdminOrStaff <;>
    cases hO : obj.owner <;>
    simp_all [hasObjectPermissionOwnerOrAdmin]

/-- The folder visibility test, spelled as a disjunction. -/
theorem folderVisibleTo_iff (u : User) (f : FolderRow) :
    f.visibleTo u = true ↔
      (f.ownerId = u.id ∨ u.id ∈ f.shared_users ∨ f.is_public = true) := by
  simp [FolderRow.visibleTo, or_assoc]

/-- The document visibility test, spelled as a disjunction. -/
theorem docVisibleTo_iff (u : User) (d : DocRow) :
    d.visibleTo u = true ↔
      (d.ownerId = u.id ∨ u.id ∈ d.shared_users ∨ d.is_public = true) := by
  simp [DocRow.visibleTo, or_assoc]

/-- The version/comment join test, spelled with an explicit witness for the
resolved document row. -/
theorem docRefVisible_iff (u : User) (docs : List DocRow) (i : Nat) :
    docRefVisible u docs i = true ↔
      ∃ d, findDoc docs i = some d ∧
        (d.ownerId = u.id ∨ u.id ∈ d.shared_users ∨ d.is_public = true) := by
  cases h : findDoc docs i with
  | none => simp [docRefVisible, h]
  | some d => simp [docRefVisible, h, docVisibleTo_iff]

/-- C7: for every principal, the rows the Folder, Document, DocumentVersion
and Comment querysets return are exactly the stored rows that are owned by
the principal, shared with the principal, or flagged public — for versions
and comments via the referenced document's owner, shared set and public
flag. -/
theorem C7_queryset_union_scoping (u : User) (fs : List FolderRow) (docs : List DocRow)
    (vs : List VersionRow) (cs : List CommentRow)
    (f : FolderRow) (d : DocRow) (v : VersionRow) (c : CommentRow) :
    (f ∈ folderQueryset u fs ↔
      f ∈ fs ∧ (f.ownerId = u.id ∨ u.id ∈ f.shared_users ∨ f.is_public = true)) ∧
    (d ∈ documentQueryset u docs ↔
      d ∈ docs ∧ (d.ownerId = u.id ∨ u.id ∈ d.shared_users ∨ d.is_public = true)) ∧
    (v ∈ versionQueryset u docs vs ↔
      v ∈ vs ∧ ∃ vd, findDoc docs v.document = some vd ∧
        (vd.ownerId = u.id ∨ u.id ∈ vd.shared_users ∨ vd.is_public = true)) ∧
    (c ∈ commentQueryset u docs cs ↔
      c ∈ cs ∧ ∃ cd, findDoc docs c.document = some cd ∧
        (cd.ownerId = u.id ∨ u.id ∈ cd.shared_users ∨ cd.is_public = true)) := by
  refine ⟨?_, ?_, ?_, ?_⟩
  · rw [folderQueryset, List.mem_filter, folderVisibleTo_iff]
  · rw [documentQueryset, List.mem_filter, docVisibleTo_iff]
  · rw [versionQueryset, List.mem_filter, docRefVisible_iff]
  · rw [commentQueryset, List.mem_filter, docRefVisible_iff]

/-- The non-admin activity filter, spelled with explicit witnesses: a row
passes exactly when its document reference is non-null, resolves, and the
resolved document is owned by the principal. -/
theorem activityRefOwned_iff (u : User) (docs : List DocRow) (a : ActivityRow) :
    activityRefOwned u docs a = true ↔
      ∃ i d, a.document = some i ∧ findDoc docs i = some d ∧ d.ownerId = u.id := by
  cases hd : a.document with
  | none => simp [activityRefOwned, hd]
  | some i =>
    cases hf : findDoc docs i with
    | none => simp [activityRefOwned, hd, hf]
    | some d => simp [activityRefOwned, hd, hf]

/-- C8: an activity row is visible to a principal exactly when the principal
has admin/staff capability (then all rows are visible) or the principal owns
the activity's referenced document; sharing and the public flag play no part,
and a row whose document reference is null is visible to admins only. -/
theorem C8_activity_scoping (u : User) (docs : List DocRow) (acts : List ActivityRow)
    (a : ActivityRow) :
    a ∈ activityQueryset u docs acts ↔
      a ∈ acts ∧ (u.isAdminOrStaff = true ∨
        ∃ i d, a.document = some i ∧ findDoc docs i = some d ∧ d.ownerId = u.id) := by
  cases hA : u.isAdminOrStaff with
  | true => simp [activityQueryset, hA]
  | false =>
    rw [activityQueryset]
    simp only [hA, Bool.false_eq_true, if_false, List.mem_filter, activityRefOwned_iff]
    simp

/-- C5 counterexample: creating a document without a file still logs a
"created" `DocumentActivity` — the activity is not conditional on the file,
only the initial `DocumentVersion` is. -/
theorem C5_created_activity_without_file_counterexample :
    (createDocument 1 (some "203.0.113.9") 10 "Doc" none false).doc.file = none ∧
    (createDocument 1 (some "203.0.113.9") 10 "Doc" none false).versions = [] ∧
    (createDocument 1 (some "203.0.113.9") 10 "Doc" none false).activities =
      [{ document := some 10, userId := 1, activity_type := "created",
         description := "Document created", ip_address := some "203.0.113.9" }] := by
  exact ⟨rfl, rfl, rfl⟩

/-- C5 (amended): the create operation persists the Document with the acting
principal as owner and version 1, always persists exactly one "created"
`DocumentActivity` attributed to the acting principal with the request's
origin address, and persists DocumentVersion #1 (created by the acting
principal) if and only if a file was attached. -/
theorem C5_create_characterization (uid : Nat) (ip : Option String) (i : Nat)
    (t : String) (file0 : Option String) (pub : Bool) :
    (createDocument uid ip i t file0 pub).doc =
      { docId := i, title := t, file := file0, ownerId := uid,
        shared_users := [], is_public := pub, version := 1 } ∧
    (createDocument uid ip i t file0 pub).activities =
      [{ document := some i, userId := uid, activity_type := "created",
         description := "Document created", ip_address := ip }] ∧
    ((createDocument uid ip i t file0 pub).versions = [] ↔ file0 = none) ∧
    (∀ f, file0 = some f →
      (createDocument uid ip i t file0 pub).versions =
        [{ document := i, file := f, version := 1, created_by := uid,
           comment := "Initial version" }]) := by
  cases file0 <;> simp [createDocument]

/-- C5 witness: the amended claim evaluated at a concrete create with an
attached file. -/
theorem C5_create_characterization_witness :
    (createDocument 1 (some "203.0.113.9") 10 "Doc" (some "documents/a.pdf") false).versions =
      [{ document := 10, file := "documents/a.pdf", version := 1, created_by := 1,
         comment := "Initial version" }] :=
  (C5_create_characterization 1 (some "203.0.113.9") 10 "Doc" (some "documents/a.pdf")
    false).2.2.2 "documents/a.pdf" rfl

/-- C3: a document is created with version 1; replace-file with a file
reference different from the stored one increments the version by exactly 1,
appends the `DocumentVersion` row carrying that number and comment
"Version N", and appends an "updated" activity describing the new version
number; replace-file with an identical file reference changes neither the
version counter nor the version rows nor the activity log. -/
theorem C3_version_bump (uid0 uid : Nat) (ip0 ip : Option String) (i : Nat) (t : String)
    (file0 : Option String) (pub : Bool) (st : DocState) (f : String) :
    (createDocument uid0 ip0 i t file0 pub).doc.version = 1 ∧
    (some f ≠ st.doc.file →
      (replaceFile uid ip st (some f)).doc.version = st.doc.version + 1 ∧
      (replaceFile uid ip st (some f)).versions = st.versions ++
        [{ document := st.doc.docId, file := f, version := st.doc.version + 1,
           created_by := uid, comment := "Version " ++ toString (st.doc.version + 1) }] ∧
      (replaceFile uid ip st (some f)).activities = st.activities ++
        [{ document := some st.doc.docId, userId := uid, activity_type := "updated",
           description := "Updated to version " ++ toString (st.doc.version + 1),
           ip_address := ip }]) ∧
    (some f = st.doc.file →
      (replaceFile uid ip st (some f)).doc.version = st.doc.version ∧
      (replaceFile uid ip st (some f)).versions = st.versions ∧
      (replaceFile uid ip st (some f)).activities = st.activities) := by
  refine ⟨rfl, ?_, ?_⟩
  · intro hne
    simp [replaceFile, hne]
  · intro heq
    simp [replaceFile, heq]

/-- C3 witness: the bump branch evaluated on a concrete freshly created
document whose stored file differs from the replacement. -/
theorem C3_version_bump_witness :
    (replaceFile 2 (some "198.51.100.7")
        (createDocument 1 none 10 "Doc" (some "documents/a.pdf") false)
        (some "documents/b.pdf")).doc.version =
      (createDocument 1 none 10 "Doc" (some "documents/a.pdf") false).doc.version + 1 :=
  ((C3_version_bump 1 2 none (some "198.51.100.7") 10 "Doc" (some "documents/a.pdf") false
    (createDocument 1 none 10 "Doc" (some "documents/a.pdf") false)
    "documents/b.pdf").2.1 (by decide)).1

/-- Nulling the document reference never changes an activity's kind. -/
theorem nullifyRef_activity_type (i : Nat) (a : ActivityRow) :
    (nullifyRef i a).activity_type = a.activity_type := by
  unfold nullifyRef
  split <;> rfl

/-- Nulling document references preserves the number of activities of each
kind. -/
theorem filter_kind_map_nullifyRef (i : Nat) (k : String) (l : List ActivityRow) :
    ((l.map (nullifyRef i)).filter (fun a => a.activity_type == k)).length =
      (l.filter (fun a => a.activity_type == k)).length := by
  induction l with
  | nil => rfl
  | cons a l ih =>
    simp only [List.map_cons, List.filter_cons, nullifyRef_activity_type]
    split <;> simp [ih]

/-- C6: destroying a document first logs the "deleted" activity (the store it
deletes from already contains that row), the logged row has a null document
reference and kind "deleted", exactly one "deleted" activity is added, and
every pre-existing activity survives the deletion, those referencing the
deleted document with their reference set to null. -/
theorem C6_destroy_logs_then_deletes (uid : Nat) (ip : Option String) (s : Store) (d : DocRow) :
    performDestroy uid ip s d =
      deleteDocument
        { s with activities := s.activities ++ [deletedActivity uid ip d] } d.docId ∧
    (deletedActivity uid ip d).document = none ∧
    (deletedActivity uid ip d).activity_type = "deleted" ∧
    (performDestroy uid ip s d).activities =
      s.activities.map (nullifyRef d.docId) ++ [deletedActivity uid ip d] ∧
    ((performDestroy uid ip s d).activities.filter
        (fun a => a.activity_type == "deleted")).length =
      (s.activities.filter (fun a => a.activity_type == "deleted")).length + 1 ∧
    (∀ a ∈ s.activities, nullifyRef d.docId a ∈ (performDestroy uid ip s d).activities) ∧
    (∀ a ∈ s.activities, a.document = some d.docId →
      { a with document := none } ∈ (performDestroy uid ip s d).activities) ∧
    (performDestroy uid ip s d).documents = s.documents.filter (fun x => x.docId != d.docId) := by
  have hact : (performDestroy uid ip s d).activities =
      s.activities.map (nullifyRef d.docId) ++ [deletedActivity uid ip d] := by
    simp [performDestroy, deleteDocument, nullifyRef, deletedActivity]
  refine ⟨rfl, rfl, rfl, hact, ?_, ?_, ?_, rfl⟩
  · rw [hact, List.filter_append, List.length_append, filter_kind_map_nullifyRef]
    simp [deletedActivity]
  · intro a ha
    rw [hact]
    exact List.mem_append_left _ (List.mem_map_of_mem _ ha)
  · intro a ha hdoc
    rw [hact]
    refine List.mem_append_left _ ?_
    have : nullifyRef d.docId a = { a with document := none } := by
      simp [nullifyRef, hdoc]
    exact this ▸ List.mem_map_of_mem _ ha

/-- C6 witness: destroying the concrete document keeps its pre-existing
activity in the store, with the document reference nulled. -/
theorem C6_destroy_logs_then_deletes_witness :
    nullifyRef 10 demoCreatedActivity ∈ (performDestroy 1 none demoStore demoDoc).activities :=
  (C6_destroy_logs_then_deletes 1 none demoStore demoDoc).2.2.2.2.2.1
    demoCreatedActivity (List.mem_singleton.mpr rfl)

/-- Appending the next element to a contiguous range. -/
theorem range'_snoc (s n : Nat) : List.range' s (n + 1) = List.range' s n ++ [s + n] := by
  induction n generalizing s with
  | zero => simp [List.range']
  | succ m ih =>
    rw [List.range'_succ, ih (s + 1), List.range'_succ]
    simp [Nat.add_assoc, Nat.add_comm 1 m]

/-- A replace request without a file key leaves the state untouched. -/
theorem replaceFile_none_eq (uid : Nat) (ip : Option String) (st : DocState) :
    replaceFile uid ip st none = st := rfl

/-- A replace request whose file equals the stored reference leaves the state
untouched. -/
theorem replaceFile_same_eq (uid : Nat) (ip : Option String) (st : DocState) (f : String)
    (heq : st.doc.file = some f) : replaceFile uid ip st (some f) = st := by
  cases st with
  | mk doc vs as =>
    cases doc
    simp only [DocRow.file] at heq
    subst heq
    simp [replaceFile]

/-- A replace request whose file differs from the stored reference stores the
file, bumps the counter, and appends the version row and the activity row. -/
theorem replaceFile_bump_eq (uid : Nat) (ip : Option String) (st : DocState) (f : String)
    (hne : some f ≠ st.doc.file) :
    replaceFile uid ip st (some f) =
      { doc := { st.doc with file := some f, version := st.doc.version + 1 },
        versions := st.versions ++
          [{ document := st.doc.docId, file := f, version := st.doc.version + 1,
             created_by := uid, comment := "Version " ++ toString (st.doc.version + 1) }],
        activities := st.activities ++
          [{ document := some st.doc.docId, userId := uid, activity_type := "updated",
             description := "Updated to version " ++ toString (st.doc.version + 1),
             ip_address := ip }] } := by
  simp [replaceFile, hne]

/-- `replaceFile` preserves the version-row invariant. -/
theorem replaceFile_versionInv (uid : Nat) (ip : Option String) (i v0 : Nat)
    (st : DocState) (nf : Option String) (h : VersionInv i v0 st) :
    VersionInv i v0 (replaceFile uid ip st nf) := by
  obtain ⟨hid, hv0, hle, hnums, hdoc⟩ := h
  cases nf with
  | none =>
    rw [replaceFile_none_eq]
    exact ⟨hid, hv0, hle, hnums, hdoc⟩
  | some f =>
    by_cases heq : st.doc.file = some f
    · rw [replaceFile_same_eq uid ip st f heq]
      exact ⟨hid, hv0, hle, hnums, hdoc⟩
    · have hne : some f ≠ st.doc.file := fun hh => heq hh.symm
      rw [replaceFile_bump_eq uid ip st f hne]
      refine ⟨hid, hv0, Nat.le_succ_of_le hle, ?_, ?_⟩
      · simp only [versionNums, List.map_append, List.map_cons, List.map_nil]
        rw [Nat.sub_add_comm hle, range'_snoc, Nat.add_sub_cancel' hle, ← hnums]
        rfl
      · intro v hv
        rcases List.mem_append.mp hv with hv | hv
        · exact hdoc v hv
        · rw [List.mem_singleton.mp hv]
          exact hid

/-- The version-row invariant is preserved along any sequence of replace
requests. -/
theorem foldl_replaceFile_versionInv (i v0 : Nat) (ops : List ReplaceReq) :
    ∀ st : DocState, VersionInv i v0 st →
      VersionInv i v0 (ops.foldl (fun s r => replaceFile r.uid r.ip s r.file) st) := by
  induction ops with
  | nil => exact fun st h => h
  | cons r rs ih =>
    intro st h
    exact ih _ (replaceFile_versionInv r.uid r.ip i v0 st r.file h)

/-- A fresh creation satisfies the version-row invariant, with the range
starting at 1 when a file was attached and at 2 otherwise. -/
theorem createDocument_versionInv (uid : Nat) (ip : Option String) (i : Nat) (t : String)
    (file0 : Option String) (pub : Bool) :
    VersionInv i (if file0.isSome then 1 else 2) (createDocument uid ip i t file0 pub) := by
  cases file0 with
  | none =>
    refine ⟨rfl, Nat.le_succ 1, Nat.le_refl 2, rfl, ?_⟩
    intro v hv
    cases hv
  | some f =>
    refine ⟨rfl, Nat.le_refl 1, Nat.le_succ 1, rfl, ?_⟩
    intro v hv
    rw [List.mem_singleton.mp hv]

/-- What the invariant yields: unique (document, version) pairs, version
numbers forming the contiguous range from `v0` to the counter, and — when the
range starts at 1 — exactly the gap-free sequence 1..N for N rows. -/
theorem versionInv_consequences (i v0 : Nat) (st : DocState) (h : VersionInv i v0 st) :
    (st.versions.map (fun v => (v.document, v.version))).Nodup ∧
    versionNums st = List.range' v0 (st.doc.version + 1 - v0) ∧
    (v0 = 1 → versionNums st = List.range' 1 st.versions.length) := by
  obtain ⟨hid, hv0, hle, hnums, hdoc⟩ := h
  have hsnd : (st.versions.map (fun v => (v.document, v.version))).map Prod.snd =
      versionNums st := by
    simp [versionNums, List.map_map]
  have hnd : (versionNums st).Nodup := by
    rw [hnums]
    exact List.nodup_range' v0 _ 1 (by decide)
  refine ⟨?_, hnums, ?_⟩
  · refine List.Nodup.of_map Prod.snd ?_
    rw [hsnd]
    exact hnd
  · intro h1
    subst h1
    have hlen : st.versions.length = st.doc.version + 1 - 1 := by
      have hc := congrArg List.length hnums
      simpa [versionNums] using hc
    rw [hlen]
    exact hnums

/-- C4 counterexample: create a document without a file, then replace the
file once — the single `DocumentVersion` row carries version number 2, so the
version numbers are not the contiguous sequence 1..N. -/
theorem C4_gap_counterexample :
    versionNums (docTrace 1 none 10 "Doc" none false
        [{ uid := 1, ip := none, file := some "documents/a.pdf" }]) = [2] ∧
    versionNums (docTrace 1 none 10 "Doc" none false
        [{ uid := 1, ip := none, file := some "documents/a.pdf" }]) ≠
      List.range' 1 (docTrace 1 none 10 "Doc" none false
        [{ uid := 1, ip := none, file := some "documents/a.pdf" }]).versions.length := by
  decide

/-- C4 (amended): after a create and any sequence of replace-file requests,
the (document, version) pairs of the version rows are unique and the version
numbers form a contiguous gap-free range ending at the document's version
counter; the range starts at 1 when a file was attached at creation — giving
exactly 1..N — and at 2 when not, because the initial version row is skipped
while the counter still starts at 1. -/
theorem C4_version_rows_contiguous (uid : Nat) (ip : Option String) (i : Nat) (t : String)
    (file0 : Option String) (pub : Bool) (ops : List ReplaceReq) :
    ((docTrace uid ip i t file0 pub ops).versions.map
        (fun v => (v.document, v.version))).Nodup ∧
    versionNums (docTrace uid ip i t file0 pub ops) =
      List.range' (if file0.isSome then 1 else 2)
        ((docTrace uid ip i t file0 pub ops).doc.version + 1 -
          (if file0.isSome then 1 else 2)) ∧
    (file0.isSome = true →
      versionNums (docTrace uid ip i t file0 pub ops) =
        List.range' 1 (docTrace uid ip i t file0 pub ops).versions.length) := by
  have hinv : VersionInv i (if file0.isSome then 1 else 2) (docTrace uid ip i t file0 pub ops) :=
    foldl_replaceFile_versionInv i (if file0.isSome then 1 else 2) ops
      (createDocument uid ip i t file0 pub) (createDocument_versionInv uid ip i t file0 pub)
  have hc := versionInv_consequences i (if file0.isSome then 1 else 2)
    (docTrace uid ip i t file0 pub ops) hinv
  refine ⟨hc.1, hc.2.1, ?_⟩
  intro hs
  exact hc.2.2 (by simp [hs])

/-- C4 witness: a create with a file followed by one effective replace yields
version rows numbered exactly 1..2. -/
theorem C4_version_rows_contiguous_witness :
    versionNums (docTrace 1 none 10 "Doc" (some "documents/a.pdf") false
        [{ uid := 2, ip := none, file := some "documents/b.pdf" }]) =
      List.range' 1 (docTrace 1 none 10 "Doc" (some "documents/a.pdf") false
        [{ uid := 2, ip := none, file := some "documents/b.pdf" }]).versions.length :=
  (C4_version_rows_contiguous 1 none 10 "Doc" (some "documents/a.pdf") false
    [{ uid := 2, ip := none, file := some "documents/b.pdf" }]).2.2 rfl

/-- One unfolding of `full_path` at a parentless folder. -/
theorem fullPathFuel_parent_none (fs : List FolderRow) (fuel : Nat) (f : FolderRow)
    (hp : f.parent = none) :
    fullPathFuel fs (fuel + 1) f = some f.name := by
  simp only [fullPathFuel, hp]

/-- One unfolding of `full_path` at a folder whose parent resolves. -/
theorem fullPathFuel_parent_step (fs : List FolderRow) (fuel : Nat) (f pf : FolderRow)
    (p : Nat) (hp : f.parent = some p) (hf : findFolder fs p = some pf) :
    fullPathFuel fs (fuel + 1) f =
      (fullPathFuel fs fuel pf).map (fun s => s ++ "/" ++ f.name) := by
  simp only [fullPathFuel, hp, hf]

/-- On the store where folder 1 is its own parent, `full_path` returns no
result however much fuel it is granted: the Python property would recurse
forever. -/
theorem cyclicFolder_no_full_path :
    ∀ fuel : Nat, fullPathFuel [selfParentFolder] fuel selfParentFolder = none := by
  intro fuel
  induction fuel with
  | zero => rfl
  | succ n ih =>
    rw [fullPathFuel_parent_step [selfParentFolder] n selfParentFolder selfParentFolder 1
      rfl rfl, ih]
    rfl

/-- C10: for a folder whose parent chain reaches a root in `n` hops,
`full_path` terminates within fuel `n + 1`, returning the folder's own name
when it has no parent and the parent's path joined with "/" and its name
otherwise; and the parent-update write operation performs no acyclicity
check — it happily makes a folder its own parent, after which `full_path`
never returns. -/
theorem C10_full_path_terminates_on_acyclic_chains (fs : List FolderRow) (f : FolderRow)
    (n : Nat) (h : RootedAt fs f n) :
    ((fullPathFuel fs (n + 1) f).isSome = true ∧
     (f.parent = none → fullPathFuel fs (n + 1) f = some f.name) ∧
     (∀ p pf ps, f.parent = some p → findFolder fs p = some pf →
        fullPathFuel fs n pf = some ps →
        fullPathFuel fs (n + 1) f = some (ps ++ "/" ++ f.name))) ∧
    (updateFolderParent [rootFolderA] 1 (some 1) = [selfParentFolder] ∧
     ∀ fuel, fullPathFuel [selfParentFolder] fuel selfParentFolder = none) := by
  refine ⟨?_, rfl, cyclicFolder_no_full_path⟩
  induction h with
  | root hp =>
    refine ⟨?_, ?_, ?_⟩
    · rw [fullPathFuel_parent_none _ _ _ hp]
      rfl
    · intro _
      exact fullPathFuel_parent_none _ _ _ hp
    · intro p pf ps hq _ _
      rw [hp] at hq
      cases hq
  | step hp hf hr ih =>
    refine ⟨?_, ?_, ?_⟩
    · rw [fullPathFuel_parent_step _ _ _ _ _ hp hf]
      obtain ⟨s, hs⟩ := Option.isSome_iff_exists.mp ih.1
      rw [hs]
      rfl
    · intro hnone
      rw [hp] at hnone
      cases hnone
    · intro q qf qs hq hfq hps
      rw [hp] at hq
      injection hq with hq2
      subst hq2
      rw [hf] at hfq
      injection hfq with hfq2
      subst hfq2
      rw [fullPathFuel_parent_step _ _ _ _ _ hp hf, hps]
      rfl

/-- C10 witness: the recurrence evaluated at a concrete parentless folder. -/
theorem C10_full_path_witness :
    fullPathFuel [rootFolderA] 1 rootFolderA = some "a" :=
  ((C10_full_path_terminates_on_acyclic_chains [rootFolderA] rootFolderA 0
    (RootedAt.root rfl)).1.2.1) rfl

/-- C9 witness: the owner-attribute conjunct evaluated at a concrete
non-admin principal, a DELETE request, and a target that does carry an
`owner` attribute — the check returns the clean ownership comparison. -/
theorem C9_owner_or_admin_evaluation_witness :
    hasObjectPermissionOwnerOrAdmin Method.DELETE demoUser { owner := some 7 } =
      some (7 == demoUser.id) :=
  (C9_owner_or_admin_evaluation Method.DELETE demoUser { owner := some 7 }).2.2.1
    7 rfl rfl rfl

/-- C7 witness: the document conjunct evaluated at a concrete store. -/
theorem C7_queryset_union_scoping_witness :
    demoDoc ∈ documentQueryset demoUser [demoDoc] ↔
      demoDoc ∈ [demoDoc] ∧
        (demoDoc.ownerId = demoUser.id ∨ demoUser.id ∈ demoDoc.shared_users ∨
          demoDoc.is_public = true) :=
  (C7_queryset_union_scoping demoUser [rootFolderA] [demoDoc] [demoVersion] [demoComment]
    rootFolderA demoDoc demoVersion demoComment).2.1

/-- C8 witness: the scoping evaluated at a concrete activity row and
non-admin principal. -/
theorem C8_activity_scoping_witness :
    demoCreatedActivity ∈ activityQueryset demoUser [demoDoc] [demoCreatedActivity] ↔
      demoCreatedActivity ∈ [demoCreatedActivity] ∧
        (demoUser.isAdminOrStaff = true ∨
          ∃ i d, demoCreatedActivity.document = some i ∧ findDoc [demoDoc] i = some d ∧
            d.ownerId = demoUser.id) :=
  C8_activity_scoping demoUser [demoDoc] [demoCreatedActivity] demoCreatedActivity

end DocMgmt
